/-
Verification of the Point Registry & Command Dispatch Core of the
terminal_iec104_client repository (Go), as a shallow embedding in Lean 4.

The embedding follows `iec_client/client.go` and `iec_client/data.go`
(the typed point tables, connection lifecycle, command dispatch,
interrogation scheduler and ingestion handler), plus the UI's local-echo
writes quoted in the repository README (`showTelecontrolDialog`,
`showTeleregulationDialog`).  The external transport library
(go-iecp5) is modelled at its call boundary: each transport call is an
emitted event, and its success or failure is an explicit oracle
argument.  Go maps become association lists with overwrite-insert,
Go float64 becomes `Rat`, Go float32 becomes a tagged wrapper `Float32`
(the language-primitive narrowing is modelled as the tagging injection),
timestamps are abstract naturals, and the goroutine scheduler loop is a
trace function over an explicit list of loop inputs.
-/
import Mathlib

namespace IEC104

/-- Go map with int keys, modelled as an association list; inserting an
existing key overwrites it (Go map assignment semantics). -/
abbrev PMap (α : Type) := List (Int × α)

/-- Go map assignment `m[k] = v`: overwrites any previous binding of `k`. -/
def PMap.insert {α : Type} (m : PMap α) (k : Int) (v : α) : PMap α :=
  (k, v) :: m.filter (fun p => p.1 != k)

/-- Go map read `m[k]`: the current binding of `k`, if any. -/
def PMap.get {α : Type} (m : PMap α) (k : Int) : Option α :=
  (m.find? (fun p => p.1 == k)).map (·.2)

/-- DataType from `data.go`: the four IEC104 data classes. -/
inductive DataType
  | Telemetry
  | Teleindication
  | Telecontrol
  | Teleregulation
deriving DecidableEq, Repr

/-- String from `data.go` (method `DataType.String`). -/
def DataType.typeName : DataType → String
  | .Telemetry => "Telemetry"
  | .Teleindication => "Teleindication"
  | .Telecontrol => "Telecontrol"
  | .Teleregulation => "Teleregulation"

/-- DataPoint from `data.go`; `Timestamp` is an abstract instant. -/
structure DataPoint where
  Address : Int
  Description : String
  Timestamp : Nat
deriving DecidableEq, Repr

/-- TelemetryPoint from `data.go`: measured value (analog). -/
structure TelemetryPoint where
  point : DataPoint
  Value : Rat
deriving DecidableEq, Repr

/-- TeleindPoint from `data.go`: status information (digital). -/
structure TeleindPoint where
  point : DataPoint
  Value : Bool
deriving DecidableEq, Repr

/-- TelecontrolPoint from `data.go`: command echo (digital control). -/
structure TelecontrolPoint where
  point : DataPoint
  Value : Bool
deriving DecidableEq, Repr

/-- TeleregulationPoint from `data.go`: setpoint echo (analog control). -/
structure TeleregulationPoint where
  point : DataPoint
  Value : Rat
deriving DecidableEq, Repr

/-- Go `float32`: a single-precision value obtained by narrowing a double.
The narrowing itself is a language primitive outside this repository; it is
modelled as a tagged injection marking where the narrowing happens. -/
structure Float32 where
  ofF64 : Rat
deriving DecidableEq, Repr

/-- The Go conversion `float32(x)` applied to a float64. -/
def float32ofFloat64 (x : Rat) : Float32 := ⟨x⟩

/-- ASDU type identifiers used by the client (from go-iecp5 `asdu`);
only the five handled ones plus representative unhandled kinds. -/
inductive TypeID
  | M_SP_NA_1
  | M_DP_NA_1
  | M_ME_NA_1
  | M_ME_NB_1
  | M_ME_NC_1
  | M_ME_ND_1
  | M_IT_NA_1
  | M_SP_TB_1
  | C_SC_NA_1
  | C_SE_NC_1
  | C_IC_NA_1
deriving DecidableEq, Repr

/-- Wire name of a type identifier (go-iecp5 `TypeID.String`),
used by the debug log of the default handler branch. -/
def TypeID.typeString : TypeID → String
  | .M_SP_NA_1 => "M_SP_NA_1"
  | .M_DP_NA_1 => "M_DP_NA_1"
  | .M_ME_NA_1 => "M_ME_NA_1"
  | .M_ME_NB_1 => "M_ME_NB_1"
  | .M_ME_NC_1 => "M_ME_NC_1"
  | .M_ME_ND_1 => "M_ME_ND_1"
  | .M_IT_NA_1 => "M_IT_NA_1"
  | .M_SP_TB_1 => "M_SP_TB_1"
  | .C_SC_NA_1 => "C_SC_NA_1"
  | .C_SE_NC_1 => "C_SE_NC_1"
  | .C_IC_NA_1 => "C_IC_NA_1"

/-- Cause of transmission (go-iecp5 `asdu.Cause`); the client only ever
sends with `Activation`. -/
inductive Cause
  | Activation
  | ActivationCon
  | Spontaneous
deriving DecidableEq, Repr

/-- Qualifier of interrogation for a station-wide general interrogation
(go-iecp5 `asdu.QOIStation` = 20). -/
def QOIStation : Nat := 20

/-- One call into the transport library, recorded as a trace event.
`sleepMs` records the fixed wait inside `SendTelecontrol`. -/
inductive TransportEvent
  | singleCmd (typeId : TypeID) (cause : Cause) (commonAddr : Int)
      (ioa : Int) (value : Bool) (inSelect : Bool)
  | setpointFloatCmd (typeId : TypeID) (cause : Cause) (commonAddr : Int)
      (ioa : Int) (value : Float32)
  | interrogationCmd (cause : Cause) (commonAddr : Int) (qoi : Nat)
  | closeSession
  | startDt
  | sleepMs (ms : Nat)
deriving DecidableEq, Repr

/-- Whether a trace event is a message handed to the transport
(as opposed to a local wait). -/
def TransportEvent.isMessage : TransportEvent → Bool
  | .sleepMs _ => false
  | _ => true

/-- Dynamic value passed to the data callback (Go `interface{}`):
a float64 for telemetry, a bool for teleindication. -/
inductive DataValue
  | floatVal (x : Rat)
  | boolVal (b : Bool)
deriving DecidableEq, Repr

/-- An observer-visible effect: a connectivity or data callback firing,
or a line written to the logger. -/
inductive ClientEvent
  | connState (connected : Bool)
  | dataUpdate (typ : DataType) (ioa : Int) (value : DataValue)
  | logDebug (msg : String)
  | logInfo (msg : String)
deriving DecidableEq, Repr

/-- Errors returned by the client's operations.  `noConnection` is
`ErrorNoConnection` ("no connection to server"); `sendError` is a
transport failure wrapped with the originating phase's context string
(`fmt.Errorf("<context>: %v", err)`). -/
inductive ClientError
  | noConnection
  | sendError (context : String) (cause : String)
deriving DecidableEq, Repr

/-- Reconnect policy configured on the transport option in `Connect`. -/
structure ReconnectOpt where
  autoReconnect : Bool
  intervalSec : Nat
deriving DecidableEq, Repr

/-- State of an `IEC104Client` (from `client.go`).  `clientSet` models
`c.client != nil` (the session handle exists), `closerClosed` models the
one-shot `closer` channel having been closed, and the two handler flags
model whether the corresponding callback slot is non-nil. -/
structure ClientState where
  serverIP : String
  serverPort : Int
  commonAddr : Int
  closerClosed : Bool
  connStateHandlerSet : Bool
  dataHandlerSet : Bool
  Connected : Bool
  clientSet : Bool
  reconnect : Option ReconnectOpt
  Telemetry : PMap TelemetryPoint
  Teleindication : PMap TeleindPoint
  Telecontrol : PMap TelecontrolPoint
  Teleregulation : PMap TeleregulationPoint
deriving DecidableEq, Repr

/-- NewIEC104Client from `client.go`: fresh state, empty tables, open
stop channel, no session. -/
def NewIEC104Client (host : String) (port commonAddr : Int) : ClientState :=
  { serverIP := host
    serverPort := port
    commonAddr := commonAddr
    closerClosed := false
    connStateHandlerSet := false
    dataHandlerSet := false
    Connected := false
    clientSet := false
    reconnect := none
    Telemetry := []
    Teleindication := []
    Telecontrol := []
    Teleregulation := [] }

/-- Interval, in seconds, that `NewIEC104Client` passes to the scheduler
loop: `go client.run(time.Second * 15)`. -/
def newClientSchedulerIntervalSec : Nat := 15

/-- Connect from `client.go`.  A no-op returning nil when already
connected.  Otherwise: configure auto-reconnect (enabled, 5 s interval),
`AddRemoteServer` (its failure is the `addrErr` oracle; the state is
untouched on that failure since the session is created afterwards),
create the session handle, then `Start` (its failure is the `startErr`
oracle, wrapped as "connect error"; the handle stays assigned).
Connection callbacks are invoked later by the transport, not here. -/
def Connect (c : ClientState) (addrErr startErr : Option String) :
    Except String Unit × ClientState × List TransportEvent × List ClientEvent :=
  if c.Connected then (.ok (), c, [], [])
  else
    match addrErr with
    | some e => (.error e, c, [], [])
    | none =>
      let c1 : ClientState :=
        { c with clientSet := true, reconnect := some ⟨true, 5⟩ }
      match startErr with
      | some e => (.error ("connect error: " ++ e), c1, [], [])
      | none => (.ok (), c1, [], [])

/-- On-connect callback installed by `Connect`: sets the atomic flag,
fires the connectivity callback if registered, logs, and sends the
start-data-transfer activation. -/
def onConnected (c : ClientState) :
    ClientState × List TransportEvent × List ClientEvent :=
  ({ c with Connected := true },
   [.startDt],
   (if c.connStateHandlerSet then [ClientEvent.connState true] else []) ++
     [.logInfo ("Connected to server: " ++ c.serverIP ++ ":" ++
       toString c.serverPort)])

/-- Connection-lost callback installed by `Connect`: clears the atomic
flag, fires the connectivity callback if registered, and logs. -/
def onConnectionLost (c : ClientState) :
    ClientState × List ClientEvent :=
  ({ c with Connected := false },
   (if c.connStateHandlerSet then [ClientEvent.connState false] else []) ++
     [.logInfo ("Disconnected from server: " ++ c.serverIP ++ ":" ++
       toString c.serverPort)])

/-- Disconnect from `client.go`: a no-op returning nil when the flag is
down or no session handle exists; otherwise closes the session and
clears the flag.  The handle itself stays assigned (`c.client` is never
set back to nil). -/
def Disconnect (c : ClientState) :
    Except String Unit × ClientState × List TransportEvent × List ClientEvent :=
  if !c.Connected || !c.clientSet then (.ok (), c, [], [])
  else (.ok (), { c with Connected := false }, [.closeSession], [])

/-- A Go runtime panic observable from this core. -/
inductive GoPanic
  | closeOfClosedChannel
deriving DecidableEq, Repr

/-- Close from `client.go`: `close(c.closer)` then `c.Disconnect()`.
Closing an already-closed channel is a runtime panic. -/
def Close (c : ClientState) :
    Except GoPanic (ClientState × List TransportEvent) :=
  if c.closerClosed then .error .closeOfClosedChannel
  else
    let c1 : ClientState := { c with closerClosed := true }
    let r := Disconnect c1
    .ok (r.2.1, r.2.2.1)

/-- SendTelecontrol from `client.go`.  Guard: `!Connected || client == nil`
fails with `ErrorNoConnection`.  Otherwise `ioa = offset + 24577`, then a
select-phase single command (common address literal 1, cause Activation,
`InSelect` set), a fixed 200 ms sleep, and an execute-phase single command
without the select qualifier.  The two oracles give the transport's
verdict on each phase; a failure is wrapped with that phase's context. -/
def SendTelecontrol (c : ClientState) (selectErr execErr : Option String)
    (offset : Int) (value : Bool) :
    Except ClientError Unit × ClientState × List TransportEvent :=
  if !c.Connected || !c.clientSet then (.error .noConnection, c, [])
  else
    let ioa : Int := offset + 24577
    let selMsg : TransportEvent :=
      .singleCmd .C_SC_NA_1 .Activation 1 ioa value true
    match selectErr with
    | some e =>
      (.error (.sendError "send Select Command error" e), c, [selMsg])
    | none =>
      let execMsg : TransportEvent :=
        .singleCmd .C_SC_NA_1 .Activation 1 ioa value false
      match execErr with
      | some e =>
        (.error (.sendError "send Telecontrol Command error" e), c,
         [selMsg, .sleepMs 200, execMsg])
      | none => (.ok (), c, [selMsg, .sleepMs 200, execMsg])

/-- SendTelemetry from `client.go`.  Guard as for telecontrol; otherwise
`ioa = offset + 25089` and a single setpoint-float command (common
address literal 1, cause Activation) carrying `float32(value)`.  No
select phase.  A failure is wrapped as "send Telemetry Command error". -/
def SendTelemetry (c : ClientState) (sendErr : Option String)
    (offset : Int) (value : Rat) :
    Except ClientError Unit × ClientState × List TransportEvent :=
  if !c.Connected || !c.clientSet then (.error .noConnection, c, [])
  else
    let ioa : Int := offset + 25089
    let msg : TransportEvent :=
      .setpointFloatCmd .C_SE_NC_1 .Activation 1 ioa (float32ofFloat64 value)
    match sendErr with
    | some e => (.error (.sendError "send Telemetry Command error" e), c, [msg])
    | none => (.ok (), c, [msg])

/-- One decoded information object inside an ASDU, as returned by the
go-iecp5 getters: information-object address, value and time tag. -/
structure PointRec (α : Type) where
  ioa : Int
  value : α
  time : Nat
deriving DecidableEq, Repr

/-- A decoded inbound ASDU at the handler boundary: common address, type
identifier, and the per-point records each library getter would decode
from it (`GetMeasuredValueFloat`, `GetMeasuredValueNormal`,
`GetMeasuredValueScaled`, `GetSinglePoint`).  Float values are already
widened to float64 (exact), normalized and scaled values are the int16
the library yields before the handler's `float64(d.Value)` cast. -/
structure ASDU where
  commonAddr : Int
  typeId : TypeID
  floatPts : List (PointRec Rat)
  normalPts : List (PointRec Int)
  scaledPts : List (PointRec Int)
  singlePts : List (PointRec Bool)
deriving DecidableEq, Repr

/-- The telemetry branch body of `ASDUHandler`: for each decoded point,
store a `TelemetryPoint` under the wire address and, if a data callback
is registered, fire `(Telemetry, address, floatValue)`. -/
def ingestTelemetry (c : ClientState) (pts : List (PointRec Rat)) :
    ClientState × List ClientEvent :=
  match pts with
  | [] => (c, [])
  | d :: rest =>
    let c1 : ClientState :=
      { c with Telemetry :=
          c.Telemetry.insert d.ioa ⟨⟨d.ioa, "", d.time⟩, d.value⟩ }
    let evs : List ClientEvent :=
      if c.dataHandlerSet then
        [.dataUpdate .Telemetry d.ioa (.floatVal d.value)]
      else []
    let r := ingestTelemetry c1 rest
    (r.1, evs ++ r.2)

/-- The single-point branch body of `ASDUHandler`: for each decoded
point, store a `TeleindPoint` under the wire address and, if a data
callback is registered, fire `(Teleindication, address, boolValue)`. -/
def ingestTeleindication (c : ClientState) (pts : List (PointRec Bool)) :
    ClientState × List ClientEvent :=
  match pts with
  | [] => (c, [])
  | d :: rest =>
    let c1 : ClientState :=
      { c with Teleindication :=
          c.Teleindication.insert d.ioa ⟨⟨d.ioa, "", d.time⟩, d.value⟩ }
    let evs : List ClientEvent :=
      if c.dataHandlerSet then
        [.dataUpdate .Teleindication d.ioa (.boolVal d.value)]
      else []
    let r := ingestTeleindication c1 rest
    (r.1, evs ++ r.2)

/-- The cast `float64(d.Value)` applied to a list of int-valued points. -/
def intPtsToFloat (pts : List (PointRec Int)) : List (PointRec Rat) :=
  pts.map (fun d => ⟨d.ioa, (d.value : Rat), d.time⟩)

/-- ASDUHandler from `client.go`.  Drops the whole message when the
common address differs from the configured one.  Otherwise dispatches on
the type identifier: `M_ME_NC_1` ingests the float getter's points;
`M_ME_NA_1` and `M_ME_ND_1` the normal getter's (cast to float);
`M_ME_NB_1` the scaled getter's (cast to float); `M_SP_NA_1` the
single-point getter's.  Any other type is logged at debug level and
dropped.  The handler always returns nil. -/
def ASDUHandler (c : ClientState) (a : ASDU) :
    Except String Unit × ClientState × List ClientEvent :=
  if a.commonAddr != c.commonAddr then (.ok (), c, [])
  else
    match a.typeId with
    | .M_ME_NC_1 =>
      let r := ingestTelemetry c a.floatPts
      (.ok (), r.1, r.2)
    | .M_ME_NA_1 | .M_ME_ND_1 =>
      let r := ingestTelemetry c (intPtsToFloat a.normalPts)
      (.ok (), r.1, r.2)
    | .M_SP_NA_1 =>
      let r := ingestTeleindication c a.singlePts
      (.ok (), r.1, r.2)
    | .M_ME_NB_1 =>
      let r := ingestTelemetry c (intPtsToFloat a.scaledPts)
      (.ok (), r.1, r.2)
    | t => (.ok (), c, [.logDebug ("Invalid ASDU type: " ++ t.typeString)])

/-- Whether `ASDUHandler` has a dedicated branch for a type identifier. -/
def TypeID.handled : TypeID → Bool
  | .M_ME_NC_1 | .M_ME_NA_1 | .M_ME_ND_1 | .M_SP_NA_1 | .M_ME_NB_1 => true
  | _ => false

/-- The Send button of the UI telecontrol dialog, from the repository
README (`showTelecontrolDialog`): call `SendTelecontrol(index, value)`;
on error log it, on success log and locally echo
`Telecontrol[index] = TelecontrolPoint{Value: value}` (all other fields
zero-valued). -/
def telecontrolDialogSend (c : ClientState) (selectErr execErr : Option String)
    (index : Int) (value : Bool) :
    ClientState × List TransportEvent × List ClientEvent :=
  let r := SendTelecontrol c selectErr execErr index value
  match r.1 with
  | .error _ => (r.2.1, r.2.2, [.logInfo "Error sending telecontrol"])
  | .ok _ =>
    ({ r.2.1 with Telecontrol :=
        r.2.1.Telecontrol.insert index ⟨⟨0, "", 0⟩, value⟩ },
     r.2.2,
     [.logInfo "Telecontrol command sent"])

/-- The Send button of the UI teleregulation dialog, from the repository
README (`showTeleregulationDialog`): call `SendTelemetry(index, value)`;
on error log it, on success log and locally echo
`Teleregulation[index] = TeleregulationPoint{Value: value}`. -/
def teleregulationDialogSend (c : ClientState) (sendErr : Option String)
    (index : Int) (value : Rat) :
    ClientState × List TransportEvent × List ClientEvent :=
  let r := SendTelemetry c sendErr index value
  match r.1 with
  | .error _ => (r.2.1, r.2.2, [.logInfo "Error sending teleregulation"])
  | .ok _ =>
    ({ r.2.1 with Teleregulation :=
        r.2.1.Teleregulation.insert index ⟨⟨0, "", 0⟩, value⟩ },
     r.2.2,
     [.logInfo "Teleregulation setpoint sent"])

/-- allCall from `client.go`: skipped silently while disconnected;
otherwise sends one station-wide general interrogation (cause
Activation) and logs a transmission failure at info level. -/
def allCall (connected : Bool) (err : Option String) (commonAddr : Int) :
    List TransportEvent × List ClientEvent :=
  if !connected then ([], [])
  else
    ([.interrogationCmd .Activation commonAddr QOIStation],
     match err with
     | some e => [.logInfo ("104 interrogation error = " ++ e)]
     | none => [])

/-- One iteration input of the scheduler loop: either the interval timer
fires (with the connectivity flag and transport verdict at that tick) or
the stop channel fires. -/
inductive SchedStep
  | tick (connected : Bool) (err : Option String)
  | stop
deriving DecidableEq, Repr

/-- An event on the scheduler's timeline: a wait (the initial sleep or
the interval timer), a transport call, an observer-visible effect, or
the permanent loop exit. -/
inductive SchedEvent
  | waitSec (s : Nat)
  | transport (e : TransportEvent)
  | clientEv (e : ClientEvent)
  | stopped
deriving DecidableEq, Repr

/-- Whether a scheduler event is a general interrogation sent to the
transport. -/
def SchedEvent.isInterrogation : SchedEvent → Bool
  | .transport (.interrogationCmd _ _ _) => true
  | _ => false

/-- The `for { select ... } }` loop of `run`: each timer tick waits the
interval then runs `allCall`; the stop signal exits the loop permanently
(any further input is never looked at). -/
def runLoop (commonAddr : Int) (intervalSec : Nat) :
    List SchedStep → List SchedEvent
  | [] => []
  | .stop :: _ => [.stopped]
  | .tick conn err :: rest =>
    let r := allCall conn err commonAddr
    .waitSec intervalSec ::
      (r.1.map .transport ++ r.2.map .clientEv ++
        runLoop commonAddr intervalSec rest)

/-- run from `client.go`: sleep 5 seconds, one initial `allCall`
(connectivity and verdict given by `conn0`/`err0`), then the timer
loop. -/
def run (commonAddr : Int) (intervalSec : Nat) (conn0 : Bool)
    (err0 : Option String) (steps : List SchedStep) : List SchedEvent :=
  let r := allCall conn0 err0 commonAddr
  .waitSec 5 ::
    (r.1.map .transport ++ r.2.map .clientEv ++
      runLoop commonAddr intervalSec steps)

/-- A connected client with a live session and both callbacks
registered, used to instantiate theorems at concrete inputs. -/
def sampleClient : ClientState :=
  { NewIEC104Client "127.0.0.1" 2404 1 with
      Connected := true
      clientSet := true
      connStateHandlerSet := true
      dataHandlerSet := true
      reconnect := some ⟨true, 5⟩ }

/-- A client whose transport has reported connection loss while the
session handle still exists. -/
def sampleLostClient : ClientState :=
  { sampleClient with Connected := false }

/-- A short-float measured-value ASDU with two points, addressed to the
configured station. -/
def sampleFloatAsdu : ASDU :=
  { commonAddr := 1
    typeId := .M_ME_NC_1
    floatPts := [⟨16385, (5 : Rat) / 2, 7⟩, ⟨16386, 3, 8⟩]
    normalPts := []
    scaledPts := []
    singlePts := [] }

/-- A single-point status ASDU with one point, addressed to the
configured station. -/
def sampleSingleAsdu : ASDU :=
  { commonAddr := 1
    typeId := .M_SP_NA_1
    floatPts := []
    normalPts := []
    scaledPts := []
    singlePts := [⟨3, true, 9⟩] }

/-- The spec scenario for address filtering: a message with one float
point at wire address 100 but a common address different from the
configured one. -/
def sampleMismatchAsdu : ASDU :=
  { commonAddr := 2
    typeId := .M_ME_NC_1
    floatPts := [⟨100, 1, 4⟩]
    normalPts := []
    scaledPts := []
    singlePts := [] }

/-- An ASDU of a kind the handler has no branch for (double point). -/
def sampleUnhandledAsdu : ASDU :=
  { commonAddr := 1
    typeId := .M_DP_NA_1
    floatPts := []
    normalPts := []
    scaledPts := []
    singlePts := [] }

/-- Reading back the key just written returns the written value. -/
theorem PMap.get_insert_self {α : Type} (m : PMap α) (k : Int) (v : α) :
    (m.insert k v).get k = some v := by
  simp [PMap.insert, PMap.get, List.find?]

/-- Filtering out the bindings of one key does not change the lookup of
a different key. -/
theorem PMap.find_filter_ne {α : Type} (m : PMap α) (k k' : Int)
    (h : k' ≠ k) :
    (m.filter (fun p => p.1 != k)).find? (fun p => p.1 == k') =
      m.find? (fun p => p.1 == k') := by
  induction m with
  | nil => rfl
  | cons p rest ih =>
    by_cases hk : p.1 = k
    · have h1 : (p.1 != k) = false := by simp [hk]
      have h2 : (p.1 == k') = false := by
        simp [hk]
        exact fun hh => h hh.symm
      simp [List.filter_cons, h1, List.find?_cons, h2, ih]
    · have h1 : (p.1 != k) = true := by simp [bne_iff_ne, hk]
      by_cases hk2 : p.1 = k'
      · have h2 : (p.1 == k') = true := by simp [hk2]
        simp [List.filter_cons, h1, List.find?_cons, h2]
      · have h2 : (p.1 == k') = false := by simp [hk2]
        simp [List.filter_cons, h1, List.find?_cons, h2, ih]

/-- Inserting under one key does not change the lookup of a different
key. -/
theorem PMap.get_insert_ne {α : Type} (m : PMap α) (k k' : Int) (v : α)
    (h : k' ≠ k) :
    (m.insert k v).get k' = m.get k' := by
  have hne : (k == k') = false := by
    simp
    exact fun hh => h hh.symm
  simp [PMap.insert, PMap.get, List.find?_cons, hne,
    PMap.find_filter_ne m k k' h]

/-- State effect of the telemetry ingest loop: a left fold of
overwrite-inserts keyed by each point's wire address; no other field of
the client changes. -/
theorem ingestTelemetry_state (c : ClientState) (pts : List (PointRec Rat)) :
    (ingestTelemetry c pts).1 =
      { c with Telemetry :=
          (pts.foldl
            (fun m d => m.insert d.ioa ⟨⟨d.ioa, "", d.time⟩, d.value⟩)
            c.Telemetry) } := by
  induction pts generalizing c with
  | nil => simp [ingestTelemetry]
  | cons d rest ih => simp [ingestTelemetry, ih]

/-- Event effect of the telemetry ingest loop: one data-update callback
per point, in order, when the callback slot is set; none otherwise. -/
theorem ingestTelemetry_events (c : ClientState) (pts : List (PointRec Rat)) :
    (ingestTelemetry c pts).2 =
      if c.dataHandlerSet then
        pts.map (fun d => .dataUpdate .Telemetry d.ioa (.floatVal d.value))
      else [] := by
  induction pts generalizing c with
  | nil => simp [ingestTelemetry]
  | cons d rest ih =>
    by_cases h : c.dataHandlerSet <;> simp [ingestTelemetry, ih, h]

/-- State effect of the single-point ingest loop. -/
theorem ingestTeleindication_state (c : ClientState)
    (pts : List (PointRec Bool)) :
    (ingestTeleindication c pts).1 =
      { c with Teleindication :=
          (pts.foldl
            (fun m d => m.insert d.ioa ⟨⟨d.ioa, "", d.time⟩, d.value⟩)
            c.Teleindication) } := by
  induction pts generalizing c with
  | nil => simp [ingestTeleindication]
  | cons d rest ih => simp [ingestTeleindication, ih]

/-- Event effect of the single-point ingest loop. -/
theorem ingestTeleindication_events (c : ClientState)
    (pts : List (PointRec Bool)) :
    (ingestTeleindication c pts).2 =
      if c.dataHandlerSet then
        pts.map (fun d => .dataUpdate .Teleindication d.ioa (.boolVal d.value))
      else [] := by
  induction pts generalizing c with
  | nil => simp [ingestTeleindication]
  | cons d rest ih =>
    by_cases h : c.dataHandlerSet <;> simp [ingestTeleindication, ih, h]

/-- C1: when the client is connected, `SendTelecontrol(offset, v)` uses
`ioa = offset + 24577` and issues exactly two single-command messages,
the select-phase one first and the execute-phase one second, both with
the same ioa and value, separated only by the fixed 200 ms wait (no
intervening message); a transport failure at the select phase is
returned wrapped as "send Select Command error" and one at the execute
phase as "send Telecontrol Command error". -/
theorem C1_sendTelecontrol_two_phase (c : ClientState) (offset : Int)
    (v : Bool) (hConn : c.Connected = true) (hCli : c.clientSet = true) :
    (SendTelecontrol c none none offset v =
      (.ok (), c,
       [.singleCmd .C_SC_NA_1 .Activation 1 (offset + 24577) v true,
        .sleepMs 200,
        .singleCmd .C_SC_NA_1 .Activation 1 (offset + 24577) v false])) ∧
    ((SendTelecontrol c none none offset v).2.2.filter
        TransportEvent.isMessage =
      [.singleCmd .C_SC_NA_1 .Activation 1 (offset + 24577) v true,
       .singleCmd .C_SC_NA_1 .Activation 1 (offset + 24577) v false]) ∧
    (∀ e : String,
      SendTelecontrol c (some e) none offset v =
        (.error (.sendError "send Select Command error" e), c,
         [.singleCmd .C_SC_NA_1 .Activation 1 (offset + 24577) v true])) ∧
    (∀ e : String,
      SendTelecontrol c none (some e) offset v =
        (.error (.sendError "send Telecontrol Command error" e), c,
         [.singleCmd .C_SC_NA_1 .Activation 1 (offset + 24577) v true,
          .sleepMs 200,
          .singleCmd .C_SC_NA_1 .Activation 1 (offset + 24577) v false])) := by
  refine ⟨?_, ?_, ?_, ?_⟩ <;>
    simp [SendTelecontrol, hConn, hCli, List.filter_cons,
      TransportEvent.isMessage]

/-- Witness for C1 at offset 5, value true on a connected client. -/
theorem C1_sendTelecontrol_two_phase_witness :
    sampleClient.Connected = true ∧ sampleClient.clientSet = true ∧
    SendTelecontrol sampleClient none none 5 true =
      (.ok (), sampleClient,
       [.singleCmd .C_SC_NA_1 .Activation 1 24582 true true,
        .sleepMs 200,
        .singleCmd .C_SC_NA_1 .Activation 1 24582 true false]) :=
  ⟨rfl, rfl, by
    have h := (C1_sendTelecontrol_two_phase sampleClient 5 true rfl rfl).1
    simpa using h⟩

/-- C2: when the client is connected, `SendTelemetry(offset, v)` uses
`ioa = offset + 25089` and issues exactly one setpoint-float message
carrying `float32(v)`, with no select phase; a transport failure is
returned wrapped as "send Telemetry Command error". -/
theorem C2_sendTelemetry_single (c : ClientState) (offset : Int) (v : Rat)
    (hConn : c.Connected = true) (hCli : c.clientSet = true) :
    (SendTelemetry c none offset v =
      (.ok (), c,
       [.setpointFloatCmd .C_SE_NC_1 .Activation 1 (offset + 25089)
          (float32ofFloat64 v)])) ∧
    (∀ e : String,
      SendTelemetry c (some e) offset v =
        (.error (.sendError "send Telemetry Command error" e), c,
         [.setpointFloatCmd .C_SE_NC_1 .Activation 1 (offset + 25089)
            (float32ofFloat64 v)])) := by
  constructor <;> simp [SendTelemetry, hConn, hCli]

/-- Witness for C2 at offset 7, value 3/2 on a connected client. -/
theorem C2_sendTelemetry_single_witness :
    sampleClient.Connected = true ∧ sampleClient.clientSet = true ∧
    SendTelemetry sampleClient none 7 ((3 : Rat) / 2) =
      (.ok (), sampleClient,
       [.setpointFloatCmd .C_SE_NC_1 .Activation 1 25096
          (float32ofFloat64 ((3 : Rat) / 2))]) :=
  ⟨rfl, rfl, by
    have h := (C2_sendTelemetry_single sampleClient 7 ((3 : Rat) / 2)
      rfl rfl).1
    simpa using h⟩

/-- C3: any send while the flag is down or no session exists returns
`ErrorNoConnection`, emits no transport event, and leaves the client
state unchanged, whatever the transport oracles would have said. -/
theorem C3_send_disconnected (c : ClientState) (offset : Int) (bv : Bool)
    (fv : Rat) (selErr execErr sendErr : Option String)
    (h : c.Connected = false ∨ c.clientSet = false) :
    SendTelecontrol c selErr execErr offset bv =
      (.error .noConnection, c, []) ∧
    SendTelemetry c sendErr offset fv = (.error .noConnection, c, []) := by
  rcases h with h | h <;>
    exact ⟨by simp [SendTelecontrol, h], by simp [SendTelemetry, h]⟩

/-- Witness for C3 on a freshly constructed client (no session yet). -/
theorem C3_send_disconnected_witness :
    ((NewIEC104Client "127.0.0.1" 2404 1).Connected = false ∨
      (NewIEC104Client "127.0.0.1" 2404 1).clientSet = false) ∧
    SendTelecontrol (NewIEC104Client "127.0.0.1" 2404 1) none none 5 true =
      (.error .noConnection, NewIEC104Client "127.0.0.1" 2404 1, []) ∧
    SendTelemetry (NewIEC104Client "127.0.0.1" 2404 1) none 5 2 =
      (.error .noConnection, NewIEC104Client "127.0.0.1" 2404 1, []) := by
  have h := C3_send_disconnected (NewIEC104Client "127.0.0.1" 2404 1)
    5 true 2 none none none (Or.inl rfl)
  exact ⟨Or.inl rfl, h.1, h.2⟩

/-- C4: on a matching common address, the handler dispatches on the wire
type: short-float points are stored as `TelemetryPoint`s under their
wire address with a `(Telemetry, address, floatValue)` callback each;
normalized and scaled points likewise after the `float64` cast;
single-point status is stored as a `TeleindPoint` under its wire address
with a `(Teleindication, address, boolValue)` callback; every other
type only produces a debug log.  In every case the handler returns nil
and the untouched tables are unchanged. -/
theorem C4_asdu_dispatch (c : ClientState) (a : ASDU)
    (hca : a.commonAddr = c.commonAddr) :
    (a.typeId = .M_ME_NC_1 →
      ASDUHandler c a =
        (.ok (),
         { c with Telemetry :=
            (a.floatPts.foldl
              (fun m d => m.insert d.ioa ⟨⟨d.ioa, "", d.time⟩, d.value⟩)
              c.Telemetry) },
         if c.dataHandlerSet then
           a.floatPts.map
             (fun d => .dataUpdate .Telemetry d.ioa (.floatVal d.value))
         else [])) ∧
    (a.typeId = .M_ME_NA_1 ∨ a.typeId = .M_ME_ND_1 →
      ASDUHandler c a =
        (.ok (),
         { c with Telemetry :=
            ((intPtsToFloat a.normalPts).foldl
              (fun m d => m.insert d.ioa ⟨⟨d.ioa, "", d.time⟩, d.value⟩)
              c.Telemetry) },
         if c.dataHandlerSet then
           (intPtsToFloat a.normalPts).map
             (fun d => .dataUpdate .Telemetry d.ioa (.floatVal d.value))
         else [])) ∧
    (a.typeId = .M_ME_NB_1 →
      ASDUHandler c a =
        (.ok (),
         { c with Telemetry :=
            ((intPtsToFloat a.scaledPts).foldl
              (fun m d => m.insert d.ioa ⟨⟨d.ioa, "", d.time⟩, d.value⟩)
              c.Telemetry) },
         if c.dataHandlerSet then
           (intPtsToFloat a.scaledPts).map
             (fun d => .dataUpdate .Telemetry d.ioa (.floatVal d.value))
         else [])) ∧
    (a.typeId = .M_SP_NA_1 →
      ASDUHandler c a =
        (.ok (),
         { c with Teleindication :=
            (a.singlePts.foldl
              (fun m d => m.insert d.ioa ⟨⟨d.ioa, "", d.time⟩, d.value⟩)
              c.Teleindication) },
         if c.dataHandlerSet then
           a.singlePts.map
             (fun d => .dataUpdate .Teleindication d.ioa (.boolVal d.value))
         else [])) ∧
    (a.typeId.handled = false →
      ASDUHandler c a =
        (.ok (), c,
         [.logDebug ("Invalid ASDU type: " ++ a.typeId.typeString)])) := by
  have hbne : (a.commonAddr != c.commonAddr) = false := by simp [hca]
  refine ⟨?_, ?_, ?_, ?_, ?_⟩
  · intro ht
    simp [ASDUHandler, hbne, ht, ingestTelemetry_state,
      ingestTelemetry_events]
  · rintro (ht | ht) <;>
      simp [ASDUHandler, hbne, ht, ingestTelemetry_state,
        ingestTelemetry_events]
  · intro ht
    simp [ASDUHandler, hbne, ht, ingestTelemetry_state,
      ingestTelemetry_events]
  · intro ht
    simp [ASDUHandler, hbne, ht, ingestTeleindication_state,
      ingestTeleindication_events]
  · intro ht
    cases h : a.typeId <;>
      simp_all [ASDUHandler, hbne, TypeID.handled]

/-- Witness for C4: a two-point short-float ASDU, and an unhandled
double-point ASDU, each processed by the sample connected client. -/
theorem C4_asdu_dispatch_witness :
    sampleFloatAsdu.commonAddr = sampleClient.commonAddr ∧
    ASDUHandler sampleClient sampleFloatAsdu =
      (.ok (),
       { sampleClient with Telemetry :=
          [(16386, ⟨⟨16386, "", 8⟩, 3⟩),
           (16385, ⟨⟨16385, "", 7⟩, (5 : Rat) / 2⟩)] },
       [.dataUpdate .Telemetry 16385 (.floatVal ((5 : Rat) / 2)),
        .dataUpdate .Telemetry 16386 (.floatVal 3)]) ∧
    ASDUHandler sampleClient sampleUnhandledAsdu =
      (.ok (), sampleClient, [.logDebug "Invalid ASDU type: M_DP_NA_1"]) := by
  refine ⟨rfl, ?_, ?_⟩
  · have h := (C4_asdu_dispatch sampleClient sampleFloatAsdu rfl).1 rfl
    rw [h]
    rfl
  · have h :=
      (C4_asdu_dispatch sampleClient sampleUnhandledAsdu rfl).2.2.2.2 rfl
    simpa using h

/-- C5: a decoded message whose common address differs from the
configured one is dropped whole: the handler returns nil with the state
unchanged and no callback fired, whatever points it contains. -/
theorem C5_common_addr_mismatch (c : ClientState) (a : ASDU)
    (h : a.commonAddr ≠ c.commonAddr) :
    ASDUHandler c a = (.ok (), c, []) := by
  have hb : (a.commonAddr != c.commonAddr) = true := by
    simp [bne_iff_ne, h]
  simp [ASDUHandler, hb]

/-- Witness for C5: the spec scenario of a one-float-point message at
wire address 100 with a mismatching common address. -/
theorem C5_common_addr_mismatch_witness :
    sampleMismatchAsdu.commonAddr ≠ sampleClient.commonAddr ∧
    ASDUHandler sampleClient sampleMismatchAsdu =
      (.ok (), sampleClient, []) :=
  ⟨by decide,
   C5_common_addr_mismatch sampleClient sampleMismatchAsdu (by decide)⟩

/-- C6: the scheduler sleeps 5 seconds then issues one full
interrogation when connected (none when disconnected), each timer tick
waits the interval and issues exactly one station-wide interrogation
while connected, skips silently while disconnected, logs a transmission
failure without changing the behaviour of later ticks, and exits
permanently at the stop signal.  `NewIEC104Client` starts the loop at
the default interval of 15 seconds. -/
theorem C6_interrogation_scheduler (ca : Int) (n : Nat)
    (err0 : Option String) (steps : List SchedStep) :
    newClientSchedulerIntervalSec = 15 ∧
    (run ca n true none steps =
      .waitSec 5 ::
        .transport (.interrogationCmd .Activation ca QOIStation) ::
          runLoop ca n steps) ∧
    (run ca n false err0 steps = .waitSec 5 :: runLoop ca n steps) ∧
    (∀ rest : List SchedStep, ∀ err : Option String,
      runLoop ca n (.tick false err :: rest) =
        .waitSec n :: runLoop ca n rest) ∧
    (∀ rest : List SchedStep,
      runLoop ca n (.tick true none :: rest) =
        .waitSec n ::
          .transport (.interrogationCmd .Activation ca QOIStation) ::
            runLoop ca n rest) ∧
    (∀ rest : List SchedStep, ∀ e : String,
      runLoop ca n (.tick true (some e) :: rest) =
        .waitSec n ::
          .transport (.interrogationCmd .Activation ca QOIStation) ::
            .clientEv (.logInfo ("104 interrogation error = " ++ e)) ::
              runLoop ca n rest) ∧
    (∀ rest : List SchedStep, runLoop ca n (.stop :: rest) = [.stopped]) ∧
    (∀ errs : List (Option String),
      (runLoop ca n (errs.map (fun er => SchedStep.tick true er))).countP
        SchedEvent.isInterrogation = errs.length) := by
  refine ⟨rfl, ?_, ?_, ?_, ?_, ?_, ?_, ?_⟩
  · simp [run, allCall]
  · simp [run, allCall]
  · intro rest err; simp [runLoop, allCall]
  · intro rest; simp [runLoop, allCall]
  · intro rest e; simp [runLoop, allCall]
  · intro rest; rfl
  · intro errs
    induction errs with
    | nil => rfl
    | cons er rest ih =>
      cases er <;>
        simp [runLoop, allCall, List.countP_cons,
          SchedEvent.isInterrogation, ih]

/-- C7: inbound entries are keyed by the wire address unchanged, while
the UI's local echo after a successful send is keyed by the
caller-supplied offset — the derived wire address `offset + 24577` is
left untouched in the telecontrol table; in particular the scenario
`SendTelecontrol(5, true)` leaves `Telecontrol[5]` holding true. -/
theorem C7_key_asymmetry (c : ClientState) (a : ASDU) (offset : Int)
    (v : Bool) (fv : Rat)
    (hConn : c.Connected = true) (hCli : c.clientSet = true)
    (hca : a.commonAddr = c.commonAddr) :
    (a.typeId = .M_SP_NA_1 →
      (ASDUHandler c a).2.1.Teleindication =
        a.singlePts.foldl
          (fun m d => m.insert d.ioa ⟨⟨d.ioa, "", d.time⟩, d.value⟩)
          c.Teleindication) ∧
    (a.typeId = .M_ME_NC_1 →
      (ASDUHandler c a).2.1.Telemetry =
        a.floatPts.foldl
          (fun m d => m.insert d.ioa ⟨⟨d.ioa, "", d.time⟩, d.value⟩)
          c.Telemetry) ∧
    ((telecontrolDialogSend c none none offset v).1.Telecontrol =
      c.Telecontrol.insert offset ⟨⟨0, "", 0⟩, v⟩) ∧
    ((teleregulationDialogSend c none offset fv).1.Teleregulation =
      c.Teleregulation.insert offset ⟨⟨0, "", 0⟩, fv⟩) ∧
    ((telecontrolDialogSend c none none offset v).1.Telecontrol.get
        (offset + 24577) = c.Telecontrol.get (offset + 24577)) ∧
    ((telecontrolDialogSend c none none 5 true).1.Telecontrol.get 5 =
      some ⟨⟨0, "", 0⟩, true⟩) := by
  have hbne : (a.commonAddr != c.commonAddr) = false := by simp [hca]
  have hecho : (telecontrolDialogSend c none none offset v).1.Telecontrol =
      c.Telecontrol.insert offset ⟨⟨0, "", 0⟩, v⟩ := by
    simp [telecontrolDialogSend, SendTelecontrol, hConn, hCli]
  have hecho5 : (telecontrolDialogSend c none none 5 true).1.Telecontrol =
      c.Telecontrol.insert 5 ⟨⟨0, "", 0⟩, true⟩ := by
    simp [telecontrolDialogSend, SendTelecontrol, hConn, hCli]
  refine ⟨?_, ?_, hecho, ?_, ?_, ?_⟩
  · intro ht
    simp [ASDUHandler, hbne, ht, ingestTeleindication_state]
  · intro ht
    simp [ASDUHandler, hbne, ht, ingestTelemetry_state]
  · simp [teleregulationDialogSend, SendTelemetry, hConn, hCli]
  · rw [hecho]
    exact PMap.get_insert_ne c.Telecontrol offset (offset + 24577) _
      (by omega)
  · rw [hecho5]
    exact PMap.get_insert_self c.Telecontrol 5 _

/-- Witness for C7: the sample single-point ASDU on the connected
client, and the offset-5 telecontrol scenario. -/
theorem C7_key_asymmetry_witness :
    sampleClient.Connected = true ∧ sampleClient.clientSet = true ∧
    sampleSingleAsdu.commonAddr = sampleClient.commonAddr ∧
    (ASDUHandler sampleClient sampleSingleAsdu).2.1.Teleindication =
      [(3, ⟨⟨3, "", 9⟩, true⟩)] ∧
    (telecontrolDialogSend sampleClient none none 5 true).1.Telecontrol.get
      5 = some ⟨⟨0, "", 0⟩, true⟩ := by
  have h := C7_key_asymmetry sampleClient sampleSingleAsdu 5 true 0
    rfl rfl rfl
  refine ⟨rfl, rfl, rfl, ?_, h.2.2.2.2.2⟩
  have h1 := h.1 rfl
  rw [h1]
  rfl

/-- C8: `Connect` while connected returns nil with no new session and
no event; `Disconnect` while disconnected or with no session returns
nil with no event and no state change; a second `Disconnect` right
after a first one is always such a no-op. -/
theorem C8_connect_disconnect_idem (c : ClientState)
    (addrErr startErr : Option String) :
    (c.Connected = true →
      Connect c addrErr startErr = (.ok (), c, [], [])) ∧
    (c.Connected = false ∨ c.clientSet = false →
      Disconnect c = (.ok (), c, [], [])) ∧
    (Disconnect (Disconnect c).2.1 =
      (.ok (), (Disconnect c).2.1, [], [])) := by
  refine ⟨?_, ?_, ?_⟩
  · intro h; simp [Connect, h]
  · rintro (h | h) <;> simp [Disconnect, h]
  · by_cases h1 : c.Connected
    · by_cases h2 : c.clientSet
      · simp [Disconnect, h1, h2]
      · simp [Disconnect, h2]
    · simp [Disconnect, h1]

/-- Witness for C8 on the connected sample client. -/
theorem C8_connect_disconnect_idem_witness :
    sampleClient.Connected = true ∧
    Connect sampleClient none none = (.ok (), sampleClient, [], []) ∧
    Disconnect (Disconnect sampleClient).2.1 =
      (.ok (), (Disconnect sampleClient).2.1, [], []) :=
  ⟨rfl, (C8_connect_disconnect_idem sampleClient none none).1 rfl,
   (C8_connect_disconnect_idem sampleClient none none).2.2⟩

/-- Disconnect never touches the stop channel. -/
theorem Disconnect_closerClosed (c : ClientState) :
    (Disconnect c).2.1.closerClosed = c.closerClosed := by
  by_cases h1 : c.Connected <;> by_cases h2 : c.clientSet <;>
    simp [Disconnect, h1, h2]

/-- C9: on a client whose stop channel is still open, `Close` signals
it and performs the disconnect; any state it returns has the channel
closed, and calling `Close` again on that state is the
close-of-closed-channel panic, not a recoverable error. -/
theorem C9_close_double_panic (c : ClientState)
    (h : c.closerClosed = false) :
    Close c =
      .ok ((Disconnect { c with closerClosed := true }).2.1,
           (Disconnect { c with closerClosed := true }).2.2.1) ∧
    (∀ st : ClientState, ∀ evs : List TransportEvent,
      Close c = .ok (st, evs) →
        st.closerClosed = true ∧
        Close st = .error .closeOfClosedChannel) := by
  have hc : Close c =
      .ok ((Disconnect { c with closerClosed := true }).2.1,
           (Disconnect { c with closerClosed := true }).2.2.1) := by
    simp [Close, h]
  refine ⟨hc, ?_⟩
  intro st evs hok
  rw [hc] at hok
  have hst : st = (Disconnect { c with closerClosed := true }).2.1 := by
    cases hok
    rfl
  have hcl : st.closerClosed = true := by
    rw [hst, Disconnect_closerClosed]
  exact ⟨hcl, by simp [Close, hcl]⟩

/-- Witness for C9: closing the sample client succeeds, closing the
resulting state panics. -/
theorem C9_close_double_panic_witness :
    sampleClient.closerClosed = false ∧
    Close sampleClient =
      .ok ((Disconnect { sampleClient with closerClosed := true }).2.1,
           (Disconnect { sampleClient with closerClosed := true }).2.2.1) ∧
    Close (Disconnect { sampleClient with closerClosed := true }).2.1 =
      .error .closeOfClosedChannel := by
  have h := C9_close_double_panic sampleClient rfl
  exact ⟨rfl, h.1, (h.2 _ _ h.1).2⟩

/-- C10: when the transport has reported connection loss but the
session handle still exists, `Disconnect` returns nil without emitting
a session close: the handle, the reconnect configuration and all four
tables are exactly as before, so the transport's automatic reconnect
(installed by `Connect` as unlimited retries every 5 seconds) keeps
running. -/
theorem C10_disconnect_after_loss (c : ClientState)
    (h1 : c.Connected = false) (h2 : c.clientSet = true) :
    Disconnect c = (.ok (), c, [], []) ∧
    (Disconnect c).2.1.clientSet = true ∧
    (Disconnect c).2.1.reconnect = c.reconnect ∧
    (Disconnect c).2.1.Telemetry = c.Telemetry ∧
    (Disconnect c).2.1.Teleindication = c.Teleindication ∧
    (Disconnect c).2.1.Telecontrol = c.Telecontrol ∧
    (Disconnect c).2.1.Teleregulation = c.Teleregulation ∧
    (∀ c0 : ClientState, c0.Connected = false →
      (Connect c0 none none).2.1.reconnect = some ⟨true, 5⟩) := by
  have hd : Disconnect c = (.ok (), c, [], []) := by simp [Disconnect, h1]
  refine ⟨hd, ?_, ?_, ?_, ?_, ?_, ?_, ?_⟩
  · rw [hd]; exact h2
  · rw [hd]
  · rw [hd]
  · rw [hd]
  · rw [hd]
  · rw [hd]
  · intro c0 h0; simp [Connect, h0]

/-- Witness for C10 on the sample client whose connection was lost. -/
theorem C10_disconnect_after_loss_witness :
    sampleLostClient.Connected = false ∧
    sampleLostClient.clientSet = true ∧
    Disconnect sampleLostClient = (.ok (), sampleLostClient, [], []) ∧
    (Connect sampleLostClient none none).2.1.reconnect = some ⟨true, 5⟩ := by
  have h := C10_disconnect_after_loss sampleLostClient rfl rfl
  exact ⟨rfl, rfl, h.1, h.2.2.2.2.2.2.2 sampleLostClient rfl⟩

end IEC104
